import Mathlib

/-!
Verification of the Quick EDA core (src/EDA.py): the analysis engine
`EDAAnalyzer.perform_analysis` (lines 77-124) and the report renderer
`QuickEDAApp.generate_pdf_report` (lines 517-665), shallowly embedded.

Modelling conventions:
* pandas cell values are `Value`; a missing entry (NaN / None) is `Value.null`.
  pandas treats NaN as equal to NaN inside `duplicated`, which `Value.null = Value.null`
  mirrors.
* pandas float results are idealised as exact rationals; the IEEE specials that the
  engine can actually produce (0/0 = NaN, n/0 = inf) are the extra `PValue`
  constructors.  Rounding of float arithmetic is ignored, as the spec's 1e-9
  determinism tolerance allows.
* a pandas DataFrame with `k` columns is `DataFrame k`: named, typed columns and a
  list of rows, each row a total function from column index to value.
* Python dicts produced by the engine are association lists in insertion order.
* the progress callback is a function that may raise, modelled in `Except`.
-/

namespace QuickEDA

/-- A cell value of the in-memory table.  `null` is pandas NaN / None. -/
inductive Value where
  | null : Value
  | int (n : ℤ) : Value
  | num (q : ℚ) : Value
  | str (s : String) : Value
  | bool (b : Bool) : Value
deriving DecidableEq, Repr

/-- The declared type of a column (spec section 3; pandas dtype as inferred by the loader). -/
inductive DType where
  | integer : DType
  | float : DType
  | text : DType
  | categorical : DType
  | boolean : DType
  | datetime : DType
deriving DecidableEq, Repr

/-- A pandas float result: an exact rational, or one of the IEEE specials that the
engine's divisions can produce. -/
inductive PValue where
  | nan : PValue
  | inf : PValue
  | ninf : PValue
  | val (q : ℚ) : PValue
deriving DecidableEq, Repr

/-- pandas float division of a nonnegative integer numerator (a missing-value count)
by an integer denominator (the row count): `0/0` is NaN, `n/0` with `n > 0` is inf,
otherwise the exact quotient. -/
def pdivNat (a b : ℕ) : PValue :=
  if b = 0 then (if a = 0 then PValue.nan else PValue.inf)
  else PValue.val ((a : ℚ) / (b : ℚ))

/-- Multiplication of a pandas float by the scalar 100 (line 93 of the source);
the specials absorb it. -/
def pmul100 : PValue → PValue
  | PValue.nan => PValue.nan
  | PValue.inf => PValue.inf
  | PValue.ninf => PValue.ninf
  | PValue.val q => PValue.val (q * 100)

/-- The tabular dataset held in `EDAAnalyzer.df`: `k` named, typed columns and the
rows, each row assigning a value to every column index. -/
structure DataFrame (k : ℕ) where
  colNames : Fin k → String
  dtypes : Fin k → DType
  rows : List (Fin k → Value)

/-- The dataset's ordered column-name list (the data model's `column_names`). -/
def DataFrame.column_names {k : ℕ} (df : DataFrame k) : List String :=
  (List.finRange k).map df.colNames

/-- The values stored in column `i`, top to bottom. -/
def colVals {k : ℕ} (df : DataFrame k) (i : Fin k) : List Value :=
  df.rows.map (fun r => r i)

/-- Whether `select_dtypes(include=[np.number])` (line 98) selects a column of this
declared type: pandas numeric dtypes are the integer and float ones. -/
def isNumeric : DType → Bool
  | DType.integer => true
  | DType.float => true
  | _ => false

/-- Whether `select_dtypes(include=['object', 'category'])` (line 106) selects a
column of this declared type. -/
def isCatLike : DType → Bool
  | DType.text => true
  | DType.categorical => true
  | _ => false

/-- `df.isnull().sum()` for one column: the number of null entries. -/
def missingCount {k : ℕ} (df : DataFrame k) (i : Fin k) : ℕ :=
  (colVals df i).count Value.null

/-- Approximate byte size of one stored cell; stands in for pandas deep memory
accounting (strings carry Python object overhead).  No claim inspects the figure. -/
def Value.bytes : Value → ℕ
  | Value.null => 8
  | Value.int _ => 8
  | Value.num _ => 8
  | Value.str s => 8 + 49 + s.utf8ByteSize
  | Value.bool _ => 1

/-- `df.memory_usage(deep=True).sum()` (line 87): index overhead plus the cells. -/
def memory_usage {k : ℕ} (df : DataFrame k) : ℕ :=
  132 + ((List.finRange k).map (fun i => ((colVals df i).map Value.bytes).sum)).sum

/-- `Series.nunique()`: the number of distinct non-null values. -/
def nunique (vs : List Value) : ℕ :=
  ((vs.filter (fun v => !(v == Value.null))).dedup).length

/-- Inserts an element into a sorted list, before the first element it relates
to — the inner step of a stable sort. -/
def insertSorted {α : Type} (le : α → α → Bool) (a : α) : List α → List α
  | [] => [a]
  | b :: l => if le a b then a :: b :: l else b :: insertSorted le a l

/-- Stable insertion sort.  A stable sort's output is determined by the total
preorder alone, so this stands in for the library sort pandas uses. -/
def insertionSort {α : Type} (le : α → α → Bool) : List α → List α
  | [] => []
  | a :: l => insertSorted le a (insertionSort le l)

/-- `Series.value_counts()`: each distinct non-null value with its multiplicity,
most frequent first, ties kept in encounter order. -/
def value_counts (vs : List Value) : List (Value × ℕ) :=
  let nn := vs.filter (fun v => !(v == Value.null))
  insertionSort (fun a b => decide (b.2 ≤ a.2)) (nn.dedup.map (fun v => (v, nn.count v)))

/-- The numeric magnitude of a cell, for the statistics of declared-numeric columns. -/
def Value.toRat : Value → ℚ
  | Value.int n => (n : ℚ)
  | Value.num q => q
  | _ => 0

/-- One entry of `describe().to_dict()` for a numeric column.  `stdSq` carries the
sample variance (ddof 1): the code reports its square root, which is irrational in
general, so the radicand is stored and rendered symbolically. -/
structure NumStats where
  count : ℕ
  mean : PValue
  stdSq : PValue
  min : PValue
  q25 : PValue
  q50 : PValue
  q75 : PValue
  max : PValue
deriving DecidableEq, Repr

/-- pandas quantile with linear interpolation over an ascending-sorted list. -/
def quantileSorted (v : List ℚ) (q : ℚ) : PValue :=
  match v with
  | [] => PValue.nan
  | _ =>
    let n := v.length
    let h : ℚ := q * ((n : ℚ) - 1)
    let lo : ℕ := h.floor.toNat
    let x0 := v.getD lo 0
    let x1 := v.getD (lo + 1) x0
    PValue.val (x0 + (h - (lo : ℚ)) * (x1 - x0))

/-- `Series.describe()` for one numeric column: statistics over the non-null
entries only (pandas drops NaN). -/
def describeCol (vs : List Value) : NumStats :=
  let xs := (vs.filter (fun v => !(v == Value.null))).map Value.toRat
  let n := xs.length
  let s := insertionSort (fun a b => decide (a ≤ b)) xs
  let m : ℚ := if n = 0 then 0 else xs.sum / (n : ℚ)
  { count := n
    mean := if n = 0 then PValue.nan else PValue.val (xs.sum / (n : ℚ))
    stdSq :=
      if n ≤ 1 then PValue.nan
      else PValue.val ((xs.map (fun x => (x - m) ^ 2)).sum / ((n : ℚ) - 1))
    min := match s.head? with
      | none => PValue.nan
      | some x => PValue.val x
    q25 := quantileSorted s (1 / 4)
    q50 := quantileSorted s (1 / 2)
    q75 := quantileSorted s (3 / 4)
    max := match s.getLast? with
      | none => PValue.nan
      | some x => PValue.val x }

/-- One entry of `corr().to_dict()`.  Pearson r is cov divided by the square root of
the product of the two sample variances; the square root is irrational in general,
so the entry carries the pair (covariance, variance product) that determines r.
pandas yields NaN with fewer than two paired observations. -/
structure CorrEntry where
  cov : PValue
  varProd : PValue
deriving DecidableEq, Repr

/-- Pearson correlation data for two columns, over rows where both are non-null. -/
def corrEntry (xs ys : List Value) : CorrEntry :=
  let ps := ((xs.zip ys).filter
      (fun p => !(p.1 == Value.null) && !(p.2 == Value.null))).map
      (fun p => (p.1.toRat, p.2.toRat))
  let n := ps.length
  if n ≤ 1 then { cov := PValue.nan, varProd := PValue.nan }
  else
    let mx := (ps.map Prod.fst).sum / (n : ℚ)
    let my := (ps.map Prod.snd).sum / (n : ℚ)
    { cov := PValue.val ((ps.map (fun p => (p.1 - mx) * (p.2 - my))).sum / ((n : ℚ) - 1))
      varProd := PValue.val
        (((ps.map (fun p => (p.1 - mx) ^ 2)).sum / ((n : ℚ) - 1)) *
         ((ps.map (fun p => (p.2 - my) ^ 2)).sum / ((n : ℚ) - 1))) }

/-- The per-text-column record built at lines 110-113. -/
structure CatStats where
  unique_count : ℕ
  top_values : List (Value × ℕ)
deriving DecidableEq, Repr

/-- `df.duplicated()` as a recursion over the rows: each row is flagged when it
equals some earlier row.  `seen` accumulates the rows already passed. -/
def duplicatedFlags {α : Type} [DecidableEq α] : List α → List α → List Bool
  | _, [] => []
  | seen, x :: xs => decide (x ∈ seen) :: duplicatedFlags (x :: seen) xs

/-- `df.duplicated().sum()` (line 118). -/
def dupCount {α : Type} [DecidableEq α] (l : List α) : ℕ :=
  (duplicatedFlags [] l).count true

/-- The results dict built by `perform_analysis`; a key the code conditionally
omits is an `Option` (`none` = key absent). -/
structure AnalysisResults where
  shape : ℕ × ℕ
  columns : List String
  dtypes : List (String × DType)
  memory_usage : ℕ
  missing_values : List (String × ℕ)
  missing_percentage : List (String × PValue)
  numeric_summary : Option (List (String × NumStats))
  correlation_matrix : Option (List ((String × String) × CorrEntry))
  categorical_summary : Option (List (String × CatStats))
  duplicate_rows : ℕ
deriving DecidableEq, Repr

/-- The progress callback: receives a percent and a message and either returns or
raises an exception of type `ε`. -/
def Callback (ε : Type) : Type := ℕ → String → Except ε Unit

/-- `if progress_callback: progress_callback(p, msg)` — an absent callback is
skipped, a present one runs unprotected. -/
def runCb {ε : Type} (cb : Option (Callback ε)) (p : ℕ) (msg : String) : Except ε Unit :=
  match cb with
  | none => Except.ok ()
  | some f => f p msg

/-- `EDAAnalyzer.perform_analysis` (lines 77-124): the five stages interleaved with
the six unprotected callback invocations.  An exception from the callback
propagates, aborting the analysis. -/
def perform_analysis {k : ℕ} {ε : Type} (df : DataFrame k) (cb : Option (Callback ε)) :
    Except ε AnalysisResults := do
  runCb cb 10 "Analyzing basic dataset information..."
  let shape := (df.rows.length, k)
  let columns := (List.finRange k).map df.colNames
  let dtypes := (List.finRange k).map (fun i => (df.colNames i, df.dtypes i))
  let mem := memory_usage df
  runCb cb 25 "Checking for missing values..."
  let missing := (List.finRange k).map (fun i => (df.colNames i, missingCount df i))
  let missingPct := (List.finRange k).map
    (fun i => (df.colNames i, pmul100 (pdivNat (missingCount df i) df.rows.length)))
  runCb cb 50 "Analyzing numerical columns..."
  let numericCols := (List.finRange k).filter (fun i => isNumeric (df.dtypes i))
  let numSummary :=
    if numericCols.isEmpty then none
    else some (numericCols.map (fun i => (df.colNames i, describeCol (colVals df i))))
  let corrMat :=
    if numericCols.isEmpty then none
    else some (numericCols.flatMap (fun i => numericCols.map
      (fun j => ((df.colNames i, df.colNames j), corrEntry (colVals df i) (colVals df j)))))
  runCb cb 75 "Analyzing categorical columns..."
  let catCols := (List.finRange k).filter (fun i => isCatLike (df.dtypes i))
  let catSummary :=
    if catCols.isEmpty then none
    else some (catCols.map (fun i => (df.colNames i,
      { unique_count := nunique (colVals df i)
        top_values := (value_counts (colVals df i)).take 10 : CatStats })))
  runCb cb 90 "Checking for duplicate rows..."
  let dups := dupCount df.rows
  runCb cb 100 "Analysis complete!"
  return { shape := shape, columns := columns, dtypes := dtypes, memory_usage := mem,
           missing_values := missing, missing_percentage := missingPct,
           numeric_summary := numSummary, correlation_matrix := corrMat,
           categorical_summary := catSummary, duplicate_rows := dups }

/-- The analysis run as the GUI performs it when no exception occurs: with no
callback the engine cannot fail, so the result is total. -/
def analyze {k : ℕ} (df : DataFrame k) : AnalysisResults :=
  match perform_analysis (ε := Empty) df none with
  | Except.ok r => r
  | Except.error e => e.elim

/-- The analyzer object's state: the dataset and the `analysis_results` attribute,
which is overwritten only on successful completion (line 123). -/
structure AnalyzerState (k : ℕ) where
  df : DataFrame k
  analysis_results : Option AnalysisResults

/-- `perform_analysis` as a method: on success the results are stored on the
object; on an exception the store at line 123 is never reached, so the state is
returned unchanged. -/
def perform_analysis_st {k : ℕ} {ε : Type} (st : AnalyzerState k) (cb : Option (Callback ε)) :
    Except ε AnalysisResults × AnalyzerState k :=
  match perform_analysis st.df cb with
  | Except.ok r => (Except.ok r, { df := st.df, analysis_results := some r })
  | Except.error e => (Except.error e, st)

/-! ## The report renderer (`QuickEDAApp.generate_pdf_report`, lines 517-665)

The reportlab story is a list of flowables; each `story.append` is one `Block`.
Table styles are presentational only (spec section 4.2) and are not modelled. -/

/-- One flowable appended to the reportlab story. -/
inductive Block where
  | para (text : String) (style : String) : Block
  | spacer (w h : ℕ) : Block
  | table (data : List (List String)) : Block
  | pageBreak : Block
deriving DecidableEq, Repr

/-- Groups a reversed digit list into threes, comma separated (Python thousands
format). -/
def groupDigits : List Char → List Char
  | c0 :: c1 :: c2 :: c3 :: rest => c0 :: c1 :: c2 :: ',' :: groupDigits (c3 :: rest)
  | l => l

/-- Python `f-string` thousands formatting of a count. -/
def fmtThousands (n : ℕ) : String :=
  String.mk (groupDigits (toString n).data.reverse).reverse

/-- Zero pad on the left to `d` digits. -/
def padZeros (s : String) (d : ℕ) : String :=
  String.mk (List.replicate (d - s.length) '0' ++ s.data)

/-- Python fixed-point formatting of a rational to `d` decimal places.  Rounds
half away from the nearest even only in that Lean's `round` is half-up while
Python uses half-even; no claim depends on the tie case. -/
def fmtFixed (q : ℚ) (d : ℕ) : String :=
  let scaled : ℤ := round (q * (10 : ℚ) ^ d)
  let sign := if scaled < 0 then "-" else ""
  let a := scaled.natAbs
  if d = 0 then sign ++ toString a
  else sign ++ toString (a / 10 ^ d) ++ "." ++ padZeros (toString (a % 10 ^ d)) d

/-- Fixed-point formatting of a pandas float, printing the specials the way
Python string formatting does. -/
def fmtPValue (p : PValue) (d : ℕ) : String :=
  match p with
  | PValue.nan => "nan"
  | PValue.inf => "inf"
  | PValue.ninf => "-inf"
  | PValue.val q => fmtFixed q d

/-- Rendering of the std cell: the code prints the square root of the stored
sample variance to two decimals; the root being irrational, the cell carries a
symbolic form.  No claim inspects this cell. -/
def fmtStd (p : PValue) : String :=
  match p with
  | PValue.nan => "nan"
  | PValue.inf => "inf"
  | PValue.ninf => "-inf"
  | PValue.val q => "sqrt(" ++ fmtFixed q 4 ++ ")"

/-- Python `str()` of a cell value.  Rationals print in Lean's exact notation
rather than float repr; no claim inspects a numeric cell's exact text. -/
def pyStr : Value → String
  | Value.null => "nan"
  | Value.int n => toString n
  | Value.num q => toString q
  | Value.str s => s
  | Value.bool b => if b then "True" else "False"

/-- Python string slicing `s[:n]`, by code point. -/
def pySlice (s : String) (n : ℕ) : String :=
  String.mk (s.data.take n)

/-- `str()` of a pandas dtype, as printed in the Column Information table. -/
def dtypeStr : DType → String
  | DType.integer => "int64"
  | DType.float => "float64"
  | DType.text => "object"
  | DType.categorical => "category"
  | DType.boolean => "bool"
  | DType.datetime => "datetime64[ns]"

/-- Python dict access `m[c]` on an insertion-ordered dict; the default is
unreachable for engine-produced results, whose dicts contain every listed key. -/
def dictGet {β : Type} (m : List (String × β)) (c : String) (d : β) : β :=
  (((m.find? (fun p => p.1 == c)).map Prod.snd)).getD d

/-- The Dataset Overview table data (lines 553-559). -/
def overviewTable (r : AnalysisResults) : List (List String) :=
  [["Metric", "Value"],
   ["Number of Rows", fmtThousands r.shape.1],
   ["Number of Columns", toString r.shape.2],
   ["Memory Usage", fmtFixed ((r.memory_usage : ℚ) / 1024 / 1024) 2 ++ " MB"],
   ["Duplicate Rows", fmtThousands r.duplicate_rows]]

/-- The Column Information table data (lines 577-587): one row per column in
`results['columns']` order. -/
def colInfoTable (r : AnalysisResults) : List (List String) :=
  ["Column Name", "Data Type", "Missing Values", "Missing %"] ::
  r.columns.map (fun c =>
    [c, dtypeStr (dictGet r.dtypes c DType.text),
     toString (dictGet r.missing_values c 0),
     fmtPValue (dictGet r.missing_percentage c PValue.nan) 1 ++ "%"])

/-- The Numerical Columns Summary table data (lines 608-621). -/
def numericTable (m : List (String × NumStats)) : List (List String) :=
  ["Column", "Count", "Mean", "Std", "Min", "25%", "50%", "75%", "Max"] ::
  m.map (fun p =>
    [p.1, toString p.2.count, fmtPValue p.2.mean 2, fmtStd p.2.stdSq,
     fmtPValue p.2.min 2, fmtPValue p.2.q25 2, fmtPValue p.2.q50 2,
     fmtPValue p.2.q75 2, fmtPValue p.2.max 2])

/-- The per-column top-values table data (lines 649-651): a header row, then the
first five of `top_values` with Python `str(value)[:30]` truncation. -/
def catTopTable (info : CatStats) : List (List String) :=
  ["Value", "Count"] ::
  (info.top_values.take 5).map (fun p => [pySlice (pyStr p.1) 30, toString p.2])

/-- The blocks appended for one categorical column (lines 642-662). -/
def catBlocks (p : String × CatStats) : List Block :=
  Block.para ("Column: " ++ p.1) "Heading2" ::
  Block.para ("Unique values: " ++ toString p.2.unique_count) "Normal" ::
  (if p.2.top_values.isEmpty then []
   else [Block.para "Top values:" "Normal", Block.table (catTopTable p.2),
         Block.spacer 1 10])

/-- The full story built by `generate_pdf_report` (lines 521-662) before
`doc.build` is called. -/
def buildStory (r : AnalysisResults) (sourceFile : Option String) (timestamp : String) :
    List Block :=
  [Block.para "Exploratory Data Analysis Report" "CustomTitle",
   Block.spacer 1 20,
   Block.para ("Generated on: " ++ timestamp) "Normal"] ++
  (match sourceFile with
   | some f => [Block.para ("Source file: " ++ f) "Normal"]
   | none => []) ++
  [Block.spacer 1 20,
   Block.para "Dataset Overview" "CustomHeading",
   Block.table (overviewTable r),
   Block.spacer 1 20,
   Block.para "Column Information" "CustomHeading",
   Block.table (colInfoTable r)] ++
  (match r.numeric_summary with
   | some m => [Block.pageBreak, Block.para "Numerical Columns Summary" "CustomHeading",
                Block.table (numericTable m)]
   | none => []) ++
  (match r.categorical_summary with
   | some m => Block.spacer 1 20 ::
               Block.para "Categorical Columns Summary" "CustomHeading" ::
               m.flatMap catBlocks
   | none => [])

/-- The error surfaced when writing the output file fails. -/
inductive SerializeError where
  | cannotOpen : SerializeError
  | ioFailure : SerializeError
deriving DecidableEq, Repr

/-- The serializer's write loop: blocks are written to the destination one at a
time; `fault n = true` injects an I/O failure (e.g. disk full) at the n-th write,
which raises after the first `n` blocks are already on disk.  Returns the outcome
and the destination file's final contents. -/
def writeLoop (fault : ℕ → Bool) : List Block → ℕ → List Block →
    Except SerializeError Unit × List Block
  | [], _, written => (Except.ok (), written)
  | b :: bs, n, written =>
    if fault n then (Except.error SerializeError.ioFailure, written)
    else writeLoop fault bs (n + 1) (written ++ [b])

/-- `QuickEDAApp.generate_pdf_report` (lines 517-519 and 664-665):
`SimpleDocTemplate(save_path)` targets the caller's destination path directly and
`doc.build(story)` opens it — truncating any existing file — and writes the
document incrementally; the source uses no temporary file, no atomic rename and
no error cleanup, and any exception propagates to the caller.  `dest` is the
destination file's contents before the call (`none` = no file); `openFails`
injects an open failure (e.g. a non-existent directory), `fault` a write
failure. -/
def generate_pdf_report (r : AnalysisResults) (sourceFile : Option String)
    (timestamp : String) (dest : Option (List Block)) (openFails : Bool)
    (fault : ℕ → Bool) : Except SerializeError Unit × Option (List Block) :=
  let story := buildStory r sourceFile timestamp
  if openFails then (Except.error SerializeError.cannotOpen, dest)
  else
    let out := writeLoop fault story 0 []
    (out.1, some out.2)

/-! ## Concrete datasets and callbacks used to instantiate the theorems -/

/-- The dataset obtained from `df` by reordering its columns along `σ` (same
values, addressed through the permuted column order). -/
def colPerm {k : ℕ} (df : DataFrame k) (σ : Equiv.Perm (Fin k)) : DataFrame k where
  colNames := df.colNames ∘ σ
  dtypes := df.dtypes ∘ σ
  rows := df.rows.map (fun r => r ∘ σ)

/-- Scenario A of the spec: one integer column `x = [1, 2, 2]`, one text column
`t = [a, b, b]`. -/
def dfA : DataFrame 2 where
  colNames := ![ "x", "t" ]
  dtypes := ![DType.integer, DType.text]
  rows := [![Value.int 1, Value.str "a"], ![Value.int 2, Value.str "b"],
           ![Value.int 2, Value.str "b"]]

/-- `dfA` with its rows cyclically rotated. -/
def dfB : DataFrame 2 where
  colNames := ![ "x", "t" ]
  dtypes := ![DType.integer, DType.text]
  rows := [![Value.int 2, Value.str "b"], ![Value.int 1, Value.str "a"],
           ![Value.int 2, Value.str "b"]]

/-- Scenario B of the spec: zero rows, two declared columns. -/
def dfEmpty : DataFrame 2 where
  colNames := ![ "a", "b" ]
  dtypes := ![DType.integer, DType.text]
  rows := []

/-- A progress callback that always returns. -/
def cbOk : Callback Unit := fun _ _ => Except.ok ()

/-- A progress callback that raises on every invocation. -/
def cbRaise : Callback Unit := fun _ _ => Except.error ()

/-- The categorical summary the engine computes for Scenario A's text column. -/
def catA : CatStats where
  unique_count := 2
  top_values := [(Value.str "b", 2), (Value.str "a", 1)]

/-- The part of the story built before the categorical section (lines 521-635):
title, metadata, overview, column information and the optional numeric summary. -/
def storyHead (r : AnalysisResults) (sourceFile : Option String) (timestamp : String) :
    List Block :=
  [Block.para "Exploratory Data Analysis Report" "CustomTitle",
   Block.spacer 1 20,
   Block.para ("Generated on: " ++ timestamp) "Normal"] ++
  (match sourceFile with
   | some f => [Block.para ("Source file: " ++ f) "Normal"]
   | none => []) ++
  [Block.spacer 1 20,
   Block.para "Dataset Overview" "CustomHeading",
   Block.table (overviewTable r),
   Block.spacer 1 20,
   Block.para "Column Information" "CustomHeading",
   Block.table (colInfoTable r)] ++
  (match r.numeric_summary with
   | some m => [Block.pageBreak, Block.para "Numerical Columns Summary" "CustomHeading",
                Block.table (numericTable m)]
   | none => [])

end QuickEDA

namespace QuickEDA

/-! ## Helper lemmas -/

/-- Reading a field of `analyze` evaluates the corresponding stage. -/
theorem analyze_missing_percentage {k : ℕ} (df : DataFrame k) :
    (analyze df).missing_percentage = (List.finRange k).map
      (fun i => (df.colNames i, pmul100 (pdivNat (missingCount df i) df.rows.length))) := rfl

theorem analyze_missing_values {k : ℕ} (df : DataFrame k) :
    (analyze df).missing_values =
      (List.finRange k).map (fun i => (df.colNames i, missingCount df i)) := rfl

theorem analyze_numeric_summary {k : ℕ} (df : DataFrame k) :
    (analyze df).numeric_summary =
      (if ((List.finRange k).filter (fun i => isNumeric (df.dtypes i))).isEmpty then none
       else some (((List.finRange k).filter (fun i => isNumeric (df.dtypes i))).map
         (fun i => (df.colNames i, describeCol (colVals df i))))) := rfl

theorem analyze_correlation_matrix {k : ℕ} (df : DataFrame k) :
    (analyze df).correlation_matrix =
      (if ((List.finRange k).filter (fun i => isNumeric (df.dtypes i))).isEmpty then none
       else some (((List.finRange k).filter (fun i => isNumeric (df.dtypes i))).flatMap
         (fun i => ((List.finRange k).filter (fun j => isNumeric (df.dtypes j))).map
           (fun j => ((df.colNames i, df.colNames j),
             corrEntry (colVals df i) (colVals df j)))))) := rfl

theorem analyze_categorical_summary {k : ℕ} (df : DataFrame k) :
    (analyze df).categorical_summary =
      (if ((List.finRange k).filter (fun i => isCatLike (df.dtypes i))).isEmpty then none
       else some (((List.finRange k).filter (fun i => isCatLike (df.dtypes i))).map
         (fun i => (df.colNames i,
           { unique_count := nunique (colVals df i)
             top_values := (value_counts (colVals df i)).take 10 : CatStats })))) := rfl

theorem analyze_duplicate_rows {k : ℕ} (df : DataFrame k) :
    (analyze df).duplicate_rows = dupCount df.rows := rfl

/-- Counting the duplicate flags: flagged rows plus the distinct rows not yet seen
make up the whole list. -/
theorem duplicatedFlags_count {α : Type} [DecidableEq α] :
    ∀ (l seen : List α),
      (duplicatedFlags seen l).count true + (l.toFinset \ seen.toFinset).card = l.length
  | [], seen => by simp [duplicatedFlags]
  | x :: xs, seen => by
    have ih := duplicatedFlags_count xs (x :: seen)
    by_cases hx : x ∈ seen
    · have h1 : (x :: seen).toFinset = seen.toFinset := by
        simp [List.toFinset_cons, Finset.insert_eq_self.mpr (List.mem_toFinset.mpr hx)]
      have h2 : (x :: xs).toFinset \ seen.toFinset = xs.toFinset \ seen.toFinset := by
        rw [List.toFinset_cons]
        exact Finset.insert_sdiff_of_mem _ (List.mem_toFinset.mpr hx)
      rw [h1] at ih
      have hd : duplicatedFlags seen (x :: xs) = true :: duplicatedFlags (x :: seen) xs := by
        simp [duplicatedFlags, hx]
      rw [hd, h2]
      simp only [List.count_cons, List.length_cons, beq_self_eq_true, if_true]
      omega
    · have h1 : (x :: seen).toFinset = insert x seen.toFinset := List.toFinset_cons
      have h2 : (x :: xs).toFinset \ seen.toFinset =
          insert x (xs.toFinset \ seen.toFinset) := by
        rw [List.toFinset_cons]
        exact Finset.insert_sdiff_of_not_mem _ (fun hc => hx (List.mem_toFinset.mp hc))
      have h3 : xs.toFinset \ insert x seen.toFinset =
          (xs.toFinset \ seen.toFinset).erase x := Finset.sdiff_insert _ _ _
      have h4 : (insert x (xs.toFinset \ seen.toFinset)).card =
          ((xs.toFinset \ seen.toFinset).erase x).card + 1 := by
        by_cases hm : x ∈ xs.toFinset \ seen.toFinset
        · rw [Finset.insert_eq_self.mpr hm, ← Finset.card_erase_add_one hm]
        · rw [Finset.card_insert_of_not_mem hm, Finset.erase_eq_of_not_mem hm]
      rw [h1, h3] at ih
      have hd : duplicatedFlags seen (x :: xs) = false :: duplicatedFlags (x :: seen) xs := by
        simp [duplicatedFlags, hx]
      rw [hd, h2]
      simp only [List.count_cons, List.length_cons, h4]
      have hne : (false == true) = false := rfl
      rw [hne]
      simp only [Bool.false_eq_true, if_false]
      omega

/-- The duplicate count is the length minus the number of distinct rows. -/
theorem dupCount_add_card {α : Type} [DecidableEq α] (l : List α) :
    dupCount l + l.toFinset.card = l.length := by
  have h := duplicatedFlags_count l ([] : List α)
  simpa [dupCount] using h

/-- Row-permutation invariance of the duplicate count. -/
theorem dupCount_perm {α : Type} [DecidableEq α] {l l' : List α} (h : l.Perm l') :
    dupCount l' = dupCount l := by
  have h1 := dupCount_add_card l
  have h2 := dupCount_add_card l'
  rw [List.toFinset_eq_of_perm _ _ h] at h1
  have h3 := h.length_eq
  omega

/-- The duplicate count is unchanged by an injective re-encoding of the rows. -/
theorem dupCount_map_inj {α β : Type} [DecidableEq α] [DecidableEq β] (f : α → β)
    (hf : Function.Injective f) (l : List α) : dupCount (l.map f) = dupCount l := by
  have h1 := dupCount_add_card l
  have h2 := dupCount_add_card (l.map f)
  have h3 : (l.map f).toFinset = l.toFinset.image f := by
    ext b
    simp [List.mem_toFinset, List.mem_map, Finset.mem_image]
  rw [h3, Finset.card_image_of_injective _ hf, List.length_map] at h2
  omega

/-- Insertion keeps every element, adding one. -/
theorem insertSorted_length {α : Type} (le : α → α → Bool) (a : α) :
    ∀ l : List α, (insertSorted le a l).length = l.length + 1
  | [] => rfl
  | b :: l => by
    rw [insertSorted]
    by_cases h : le a b = true
    · rw [if_pos h]
      rfl
    · rw [if_neg h, List.length_cons, List.length_cons,
        insertSorted_length le a l]

/-- Sorting preserves length. -/
theorem insertionSort_length {α : Type} (le : α → α → Bool) :
    ∀ l : List α, (insertionSort le l).length = l.length
  | [] => rfl
  | a :: l => by
    rw [insertionSort, insertSorted_length, insertionSort_length le l, List.length_cons]

/-- `value_counts` lists exactly the distinct non-null values. -/
theorem value_counts_length (vs : List Value) : (value_counts vs).length = nunique vs := by
  simp [value_counts, nunique, insertionSort_length]

/-- Non-null and null entries of a column partition it. -/
theorem filter_nonnull_add_count (vs : List Value) :
    (vs.filter (fun v => !(v == Value.null))).length + vs.count Value.null = vs.length := by
  have h := List.length_eq_countP_add_countP (fun v => !(v == Value.null)) vs
  rw [List.countP_eq_length_filter] at h
  have hc : vs.count Value.null = vs.countP (fun v => v == Value.null) := by
    simp [List.count, List.countP_congr, BEq.comm]
  rw [hc]
  have he : vs.countP (fun v => v == Value.null) =
      vs.countP (fun a => decide ¬(!(a == Value.null)) = true) := by
    apply List.countP_congr
    intro a _
    cases h' : (a == Value.null) <;> simp [h']
  omega

/-- A fault-free write loop deposits every block after what was already written. -/
theorem writeLoop_no_fault (fault : ℕ → Bool) (hfault : ∀ m, fault m = false) :
    ∀ (bs : List Block) (n : ℕ) (w : List Block),
      writeLoop fault bs n w = (Except.ok (), w ++ bs)
  | [], n, w => by simp [writeLoop]
  | b :: bs, n, w => by
    rw [writeLoop, hfault n, writeLoop_no_fault fault hfault bs (n + 1) (w ++ [b])]
    simp

/-- A write loop whose first fault is the j-th write fails with the first j
blocks deposited. -/
theorem writeLoop_fault_at (fault : ℕ → Bool) :
    ∀ (bs : List Block) (j n : ℕ) (w : List Block),
      (∀ m < j, fault (n + m) = false) → fault (n + j) = true → j < bs.length →
      writeLoop fault bs n w = (Except.error SerializeError.ioFailure, w ++ bs.take j)
  | [], j, n, w => by intro _ _ h; simp at h
  | b :: bs, 0, n, w => by
    intro _ hf _
    rw [writeLoop]
    simp at hf
    simp [hf]
  | b :: bs, j + 1, n, w => by
    intro hpre hf hlen
    have h0 : fault n = false := by simpa using hpre 0 (Nat.succ_pos j)
    rw [writeLoop, h0]
    simp only [Bool.false_eq_true, if_false]
    have ih := writeLoop_fault_at fault bs j (n + 1) (w ++ [b])
      (fun m hm => by
        have := hpre (m + 1) (Nat.succ_lt_succ hm)
        simpa [Nat.add_assoc, Nat.add_comm 1 m] using this)
      (by simpa [Nat.add_assoc, Nat.add_comm 1 j] using hf)
      (by simpa using Nat.lt_of_succ_lt_succ hlen)
    rw [ih]
    simp

/-- Emptiness of a filtered index range states that no column satisfies the
predicate. -/
theorem filter_finRange_isEmpty {k : ℕ} (p : Fin k → Bool) :
    ((List.finRange k).filter p).isEmpty = true ↔ ∀ i, ¬ p i = true := by
  simp [List.isEmpty_iff, List.filter_eq_nil_iff, List.mem_finRange]

/-- Python slicing never yields more than the requested number of characters. -/
theorem pySlice_length_le (s : String) (n : ℕ) : (pySlice s n).length ≤ n := by
  simp only [pySlice, String.length_mk, List.length_take]
  exact min_le_left _ _

/-- The story splits into the head and the categorical section. -/
theorem buildStory_decomp (r : AnalysisResults) (src : Option String) (ts : String) :
    buildStory r src ts = storyHead r src ts ++
      (match r.categorical_summary with
       | some m => Block.spacer 1 20 ::
                   Block.para "Categorical Columns Summary" "CustomHeading" ::
                   m.flatMap catBlocks
       | none => []) := by
  simp [buildStory, storyHead, List.append_assoc]

/-! ## The claims -/

/-- C1 (corrected): the engine never raises a division-by-zero error, and for a
positive row count `missing_percentage[col]` is exactly
`missing_values[col] / row_count * 100`; but on a zero-row dataset every
column's missing percentage is the pandas 0/0 result NaN, not 0. -/
theorem missing_percentage_formula {k : ℕ} (df : DataFrame k) :
    (analyze df).missing_percentage = (List.finRange k).map (fun i =>
      (df.colNames i,
       if df.rows.length = 0 then PValue.nan
       else PValue.val ((missingCount df i : ℚ) / (df.rows.length : ℚ) * 100))) := by
  rw [analyze_missing_percentage]
  apply List.map_congr_left
  intro i _
  by_cases h : df.rows.length = 0
  · have hm : missingCount df i = 0 := by
      simp [missingCount, colVals, List.length_eq_zero.mp h]
    rw [h, hm]
    simp [pdivNat, pmul100]
  · simp [h, pdivNat, pmul100]

/-- C1 counterexample: on the zero-row dataset of Scenario B the engine returns
NaN for each column's missing percentage, not 0 as the claim states. -/
theorem missing_percentage_not_zero_on_empty :
    (analyze dfEmpty).missing_percentage = [("a", PValue.nan), ("b", PValue.nan)] ∧
    (analyze dfEmpty).missing_percentage ≠ [("a", PValue.val 0), ("b", PValue.val 0)] := by
  decide

/-- C2 (corrected): the callback cannot alter the result as long as it does not
raise — with an absent or never-raising callback the engine returns identical
results — but callback invocations are unprotected, so a raising callback
aborts `perform_analysis` with the callback's exception; the analyzer's stored
results are then left unchanged (partial results are not corrupted). -/
theorem callback_observational {k : ℕ} {ε : Type} (df : DataFrame k) (cb : Callback ε) :
    ((∀ p m, cb p m = Except.ok ()) →
      perform_analysis df (some cb) = perform_analysis df none) ∧
    (∀ (st : AnalyzerState k) (e : ε),
      perform_analysis st.df (some cb) = Except.error e →
      perform_analysis_st st (some cb) = (Except.error e, st)) := by
  constructor
  · intro hok
    simp only [perform_analysis, runCb, hok]
  · intro st e he
    simp [perform_analysis_st, he]

/-- C2 witness: a concrete ok-callback leaves the result unchanged, and the
always-raising callback leaves a concrete analyzer state untouched. -/
theorem callback_observational_witness :
    (perform_analysis dfA (some cbOk) = perform_analysis (ε := Unit) dfA none) ∧
    (perform_analysis_st ⟨dfA, none⟩ (some cbRaise) =
      (Except.error (), (⟨dfA, none⟩ : AnalyzerState 2))) :=
  ⟨(callback_observational dfA cbOk).1 (fun _ _ => rfl),
   (callback_observational dfA cbRaise).2 ⟨dfA, none⟩ () rfl⟩

/-- C2 counterexample: a callback raising at the first checkpoint makes
`perform_analysis` fail instead of returning the callback-free result. -/
theorem raising_callback_fails_analysis :
    perform_analysis (ε := Unit) dfA (some cbRaise) = Except.error () ∧
    perform_analysis (ε := Unit) dfA none = Except.ok (analyze dfA) ∧
    perform_analysis (ε := Unit) dfA (some cbRaise) ≠ perform_analysis (ε := Unit) dfA none := by
  refine ⟨rfl, rfl, ?_⟩
  intro h
  rw [show perform_analysis (ε := Unit) dfA (some cbRaise) = Except.error () from rfl,
    show perform_analysis (ε := Unit) dfA none = Except.ok (analyze dfA) from rfl] at h
  exact Except.noConfusion h

/-- C3 (corrected): `generate_pdf_report` performs no error handling, so a
serialization failure propagates to the caller with its cause; but the write
targets the destination path directly: a fault-free run deposits the complete
document, an open failure leaves the destination untouched, and an I/O failure
at the j-th block write leaves the first j blocks behind as a partial file,
clobbering any pre-existing file. -/
theorem generate_pdf_report_failure_modes (r : AnalysisResults) (src : Option String)
    (ts : String) (dest : Option (List Block)) (fault : ℕ → Bool) (j : ℕ) :
    (generate_pdf_report r src ts dest true fault =
      (Except.error SerializeError.cannotOpen, dest)) ∧
    ((∀ m, fault m = false) →
      generate_pdf_report r src ts dest false fault =
        (Except.ok (), some (buildStory r src ts))) ∧
    ((∀ m < j, fault m = false) → fault j = true → j < (buildStory r src ts).length →
      generate_pdf_report r src ts dest false fault =
        (Except.error SerializeError.ioFailure, some ((buildStory r src ts).take j))) := by
  refine ⟨rfl, ?_, ?_⟩
  · intro hf
    simp [generate_pdf_report, writeLoop_no_fault fault hf]
  · intro hpre hf hlen
    have h := writeLoop_fault_at fault (buildStory r src ts) j 0 []
      (fun m hm => by simpa using hpre m hm) (by simpa using hf) hlen
    simp [generate_pdf_report, h]

/-- C3 witness: a concrete run whose second write fails surfaces the I/O error
and leaves exactly the first block at the destination. -/
theorem generate_pdf_report_failure_modes_witness :
    generate_pdf_report (analyze dfEmpty) none "t" (some [Block.para "old" "Normal"]) false
        (fun n => decide (1 ≤ n)) =
      (Except.error SerializeError.ioFailure,
       some ((buildStory (analyze dfEmpty) none "t").take 1)) :=
  (generate_pdf_report_failure_modes (analyze dfEmpty) none "t"
      (some [Block.para "old" "Normal"]) (fun n => decide (1 ≤ n)) 1).2.2
    (by decide) (by decide) (by decide)

/-- C3 counterexample: after a mid-write failure the destination holds neither
the complete document nor the pre-existing file contents, and is not absent — a
partial-write state is left behind. -/
theorem pdf_partial_write_left_behind :
    (generate_pdf_report (analyze dfEmpty) none "t" (some [Block.para "old" "Normal"]) false
        (fun n => decide (1 ≤ n))).1 = Except.error SerializeError.ioFailure ∧
    (generate_pdf_report (analyze dfEmpty) none "t" (some [Block.para "old" "Normal"]) false
        (fun n => decide (1 ≤ n))).2 ≠ some (buildStory (analyze dfEmpty) none "t") ∧
    (generate_pdf_report (analyze dfEmpty) none "t" (some [Block.para "old" "Normal"]) false
        (fun n => decide (1 ≤ n))).2 ≠ some [Block.para "old" "Normal"] ∧
    (generate_pdf_report (analyze dfEmpty) none "t" (some [Block.para "old" "Normal"]) false
        (fun n => decide (1 ≤ n))).2 ≠ none := by
  refine ⟨rfl, by decide, by decide, by decide⟩

/-- C4: `numeric_summary` and `correlation_matrix` are present in the results
precisely when at least one column has numeric declared type, and are missing
keys otherwise. -/
theorem numeric_keys_presence {k : ℕ} (df : DataFrame k) :
    ((analyze df).numeric_summary.isSome = true ↔
      ∃ i : Fin k, isNumeric (df.dtypes i) = true) ∧
    ((analyze df).correlation_matrix.isSome = true ↔
      ∃ i : Fin k, isNumeric (df.dtypes i) = true) := by
  have hiff := filter_finRange_isEmpty (fun i => isNumeric (df.dtypes i))
  by_cases h : ((List.finRange k).filter (fun i => isNumeric (df.dtypes i))).isEmpty = true
  · have hno : ¬ ∃ i : Fin k, isNumeric (df.dtypes i) = true := by
      rw [not_exists]
      exact hiff.mp h
    constructor
    · rw [analyze_numeric_summary, if_pos h]
      simpa using hno
    · rw [analyze_correlation_matrix, if_pos h]
      simpa using hno
  · have hyes : ∃ i : Fin k, isNumeric (df.dtypes i) = true := by
      by_contra hc
      exact h (hiff.mpr (not_exists.mp hc))
    constructor
    · rw [analyze_numeric_summary, if_neg h]
      simpa using hyes
    · rw [analyze_correlation_matrix, if_neg h]
      simpa using hyes

/-- C5: the duplicate-row count is invariant under permuting the dataset's rows
and under permuting its columns. -/
theorem duplicate_rows_invariant {k : ℕ} (df df' : DataFrame k) (σ : Equiv.Perm (Fin k))
    (_hn : df'.colNames = df.colNames) (_ht : df'.dtypes = df.dtypes)
    (hperm : df.rows.Perm df'.rows) :
    (analyze df').duplicate_rows = (analyze df).duplicate_rows ∧
    (analyze (colPerm df σ)).duplicate_rows = (analyze df).duplicate_rows := by
  constructor
  · rw [analyze_duplicate_rows, analyze_duplicate_rows]
    exact dupCount_perm hperm
  · rw [analyze_duplicate_rows, analyze_duplicate_rows]
    have hinj : Function.Injective (fun r : Fin k → Value => r ∘ σ) := by
      intro r r' hrr
      funext i
      have hri := congrFun hrr (σ.symm i)
      simpa using hri
    exact dupCount_map_inj _ hinj df.rows

/-- C5 witness: rotating Scenario A's rows and swapping its two columns both
preserve the duplicate count. -/
theorem duplicate_rows_invariant_witness :
    (analyze dfB).duplicate_rows = (analyze dfA).duplicate_rows ∧
    (analyze (colPerm dfA (Equiv.swap 0 1))).duplicate_rows =
      (analyze dfA).duplicate_rows :=
  duplicate_rows_invariant dfA dfB (Equiv.swap 0 1) rfl rfl (by decide)

/-- C6: the results' `columns` list is exactly the dataset's ordered
column-name list. -/
theorem analyze_columns_eq {k : ℕ} (df : DataFrame k) :
    (analyze df).columns = df.column_names := rfl

/-- C7: each categorical column's `top_values` has size at most 10 and at most
its `unique_count`, and the `categorical_summary` key is present only when some
column has text/categorical declared type. -/
theorem categorical_summary_bounds {k : ℕ} (df : DataFrame k)
    (m : List (String × CatStats)) (hm : (analyze df).categorical_summary = some m) :
    (∀ p ∈ m, p.2.top_values.length ≤ 10 ∧ p.2.top_values.length ≤ p.2.unique_count) ∧
    ∃ i : Fin k, isCatLike (df.dtypes i) = true := by
  rw [analyze_categorical_summary] at hm
  by_cases h : ((List.finRange k).filter (fun i => isCatLike (df.dtypes i))).isEmpty = true
  · rw [if_pos h] at hm
    cases hm
  · rw [if_neg h] at hm
    injection hm with hm'
    constructor
    · intro p hp
      rw [← hm'] at hp
      obtain ⟨i, hi, hie⟩ := List.mem_map.mp hp
      rw [← hie]
      constructor
      · rw [List.length_take]
        exact min_le_left _ _
      · rw [List.length_take]
        exact le_trans (min_le_right _ _) (le_of_eq (value_counts_length _))
    · have hne : ((List.finRange k).filter (fun i => isCatLike (df.dtypes i))) ≠ [] := by
        intro hc
        rw [hc] at h
        exact h rfl
      obtain ⟨i, hi⟩ := List.exists_mem_of_ne_nil _ hne
      exact ⟨i, (List.mem_filter.mp hi).2⟩

/-- C7 witness: the bounds hold on Scenario A's categorical summary, and its
text column witnesses the presence condition. -/
theorem categorical_summary_bounds_witness :
    (∀ p ∈ [("t", catA)],
      p.2.top_values.length ≤ 10 ∧ p.2.top_values.length ≤ p.2.unique_count) ∧
    ∃ i : Fin 2, isCatLike (dfA.dtypes i) = true :=
  categorical_summary_bounds dfA [("t", catA)] rfl

/-- C8: when the results carry a categorical summary, the rendered story ends
with the categorical section listing each column in the summary's order; each
column contributes a sub-heading with the column name and a unique-value-count
line, a top-values table appears exactly when `top_values` is non-empty, and
any such table data is a two-entry header row plus at most 5 two-entry data
rows whose value cells are truncated to at most 30 characters. -/
theorem categorical_rendering (r : AnalysisResults) (src : Option String) (ts : String)
    (m : List (String × CatStats)) (hm : r.categorical_summary = some m) :
    (∃ pre, buildStory r src ts =
      pre ++ Block.spacer 1 20 ::
        Block.para "Categorical Columns Summary" "CustomHeading" :: m.flatMap catBlocks) ∧
    (∀ p ∈ m,
      (catBlocks p).take 2 =
        [Block.para ("Column: " ++ p.1) "Heading2",
         Block.para ("Unique values: " ++ toString p.2.unique_count) "Normal"] ∧
      (p.2.top_values = [] →
        catBlocks p = [Block.para ("Column: " ++ p.1) "Heading2",
          Block.para ("Unique values: " ++ toString p.2.unique_count) "Normal"]) ∧
      (p.2.top_values ≠ [] → Block.table (catTopTable p.2) ∈ catBlocks p) ∧
      (catTopTable p.2).length ≤ 6 ∧
      (∀ row ∈ catTopTable p.2, row.length = 2) ∧
      (∀ row ∈ (catTopTable p.2).drop 1, ∀ s ∈ row.take 1, s.length ≤ 30)) := by
  constructor
  · refine ⟨storyHead r src ts, ?_⟩
    rw [buildStory_decomp, hm]
  · intro p hp
    refine ⟨rfl, ?_, ?_, ?_, ?_, ?_⟩
    · intro he
      simp [catBlocks, he]
    · intro he
      simp [catBlocks, List.isEmpty_iff, he]
    · rw [catTopTable]
      simp only [List.length_cons, List.length_map, List.length_take]
      omega
    · intro row hrow
      rw [catTopTable] at hrow
      rcases List.mem_cons.mp hrow with hh | hh
      · rw [hh]
        rfl
      · obtain ⟨q, hq, hqe⟩ := List.mem_map.mp hh
        rw [← hqe]
        rfl
    · intro row hrow s hs
      rw [catTopTable] at hrow
      simp only [List.drop_succ_cons, List.drop_zero] at hrow
      obtain ⟨q, hq, hqe⟩ := List.mem_map.mp hrow
      rw [← hqe] at hs
      simp only [List.take_succ_cons, List.take_zero, List.mem_singleton] at hs
      rw [hs]
      exact pySlice_length_le _ _

/-- C8 witness: the story rendered from Scenario A's results decomposes into a
head followed by its categorical section. -/
theorem categorical_rendering_witness :
    ∃ pre, buildStory (analyze dfA) (some "data.csv") "now" =
      pre ++ Block.spacer 1 20 ::
        Block.para "Categorical Columns Summary" "CustomHeading" ::
        List.flatMap [("t", catA)] catBlocks :=
  (categorical_rendering (analyze dfA) (some "data.csv") "now" [("t", catA)] rfl).1

/-- C9: an analysis run leaves the dataset unchanged: the analyzer's dataframe
after `perform_analysis` equals the one before, whether the run succeeds or an
exception aborts it. -/
theorem analysis_frame {k : ℕ} {ε : Type} (st : AnalyzerState k) (cb : Option (Callback ε)) :
    ((perform_analysis_st st cb).2).df = st.df := by
  unfold perform_analysis_st
  cases perform_analysis st.df cb <;> rfl

/-- C10: for a dataset with distinct column names, the `count` statistic of a
numeric column plus that column's missing-value count equals the row count. -/
theorem numeric_count_missing {k : ℕ} (df : DataFrame k)
    (hinj : Function.Injective df.colNames) (m : List (String × NumStats))
    (hm : (analyze df).numeric_summary = some m) (c : String) (st : NumStats)
    (hc : (c, st) ∈ m) (mc : ℕ) (hmc : (c, mc) ∈ (analyze df).missing_values) :
    st.count + mc = df.rows.length := by
  rw [analyze_numeric_summary] at hm
  by_cases h : ((List.finRange k).filter (fun i => isNumeric (df.dtypes i))).isEmpty = true
  · rw [if_pos h] at hm
    cases hm
  · rw [if_neg h] at hm
    injection hm with hm'
    rw [← hm'] at hc
    obtain ⟨i, hi, hie⟩ := List.mem_map.mp hc
    rw [analyze_missing_values] at hmc
    obtain ⟨j, hj, hje⟩ := List.mem_map.mp hmc
    have h1 : df.colNames i = c := congrArg Prod.fst hie
    have h2 : describeCol (colVals df i) = st := congrArg Prod.snd hie
    have h3 : df.colNames j = c := congrArg Prod.fst hje
    have h4 : missingCount df j = mc := congrArg Prod.snd hje
    have hij : j = i := hinj (h3.trans h1.symm)
    rw [← h2, ← h4, hij]
    have hpart := filter_nonnull_add_count (colVals df i)
    have hcv : (colVals df i).length = df.rows.length := by simp [colVals]
    have hcount : (describeCol (colVals df i)).count =
        ((colVals df i).filter (fun v => !(v == Value.null))).length := by
      simp [describeCol]
    rw [hcount, missingCount]
    omega

/-- C10 witness: on Scenario A, the numeric column's count 3 plus its 0 missing
entries equals the 3 rows. -/
theorem numeric_count_missing_witness :
    (describeCol (colVals dfA 0)).count + 0 = dfA.rows.length :=
  numeric_count_missing dfA (by decide) [("x", describeCol (colVals dfA 0))] rfl
    "x" (describeCol (colVals dfA 0)) (List.mem_singleton_self _) 0 (by decide)

end QuickEDA
